import Mathlib

/-!
Verification of the raylet `Worker` class (src/ray/raylet/worker.h) of the
istoica/ray repository.

The repository provides only the header `worker.h`.  Methods whose bodies are
written inline in the header (the instance-ledger and borrowed-CPU accessors,
lines 82-108) are translated directly from that source.  Methods that are only
declared in the header (their bodies live in the missing `worker.cc`) are
modelled from the specification; each such definition carries a doc comment
starting with `Modelled from the spec:`.

External value types (`ResourceIdSet`, `TaskResourceInstances`, identifier
types) come from `ray/common` and are modelled at their interface:
  * `ResourceIdSet` is an unordered map from resource name to the owned
    resource instances (instance id with fractional quantity).  We model it as
    a total function from resource names to instance lists, the empty list
    meaning "no claim for this resource"; this captures exactly the
    observable content of the C++ unordered map (no ordering).
  * `TaskResourceInstances` is a per-resource-type vector of instance
    quantities; its default constructor (`TaskResourceInstances nothing;` in
    the header) yields the zero/empty ledger.
-/

namespace RayWorker

/-- Opaque identifier types from `ray/common/id.h`, modelled as naturals. -/
abbrev TaskID := Nat

abbrev WorkerID := Nat

abbrev JobID := Nat

abbrev ActorID := Nat

abbrev ObjectID := Nat

/-- `Language` enum tag, opaque here. -/
abbrev Language := Nat

/-- `Process` handle (PID), opaque here. -/
abbrev Process := Nat

/-- `rpc::Address` of the worker's owner. -/
structure Address where
  ip : String
  port : Int
  deriving DecidableEq, Repr

/-- One owned resource instance: its instance id and the fractional quantity
owned.  Element type of a `ResourceIdSet` entry. -/
abbrev ResourceInstance := Nat × ℚ

/-- `ResourceIdSet` (from `ray/common/task/scheduling_resources.h`): an
unordered map from resource name to the list of owned resource instances.
Modelled as a total function, empty list meaning the resource is absent. -/
def ResourceIdSet : Type := String → List ResourceInstance

/-- The empty `ResourceIdSet`: no claims at all. -/
def ResourceIdSet.empty : ResourceIdSet := fun _ => []

/-- The resource name of the CPU resource, the key singled out by
`ReleaseTaskCpuResources` / `AcquireTaskCpuResources`. -/
def cpuResourceName : String := "CPU"

/-- `ResourceIdSet::GetCpuResources`: the sub-map holding only the CPU entry. -/
def ResourceIdSet.GetCpuResources (s : ResourceIdSet) : ResourceIdSet :=
  fun r => if r = cpuResourceName then s r else []

/-- `ResourceIdSet::Acquire`: add the given instances into the set (merge the
per-resource instance lists). -/
def ResourceIdSet.Acquire (s c : ResourceIdSet) : ResourceIdSet :=
  fun r => s r ++ c r

/-- `TaskResourceInstances` (from `ray/common/scheduling`): per-resource-type
vectors of fractional instance quantities; `predefined` indexed positionally,
`custom` keyed by resource id. -/
structure TaskResourceInstances where
  predefined : List (List ℚ)
  custom : List (Nat × List ℚ)
  deriving DecidableEq, Repr

/-- The zero/empty ledger, the value of a default-constructed
`TaskResourceInstances` (`TaskResourceInstances nothing;` in the header). -/
def TaskResourceInstances.emptyLedger : TaskResourceInstances := ⟨[], []⟩

/-- `Task` (from `ray/common/task/task.h`), modelled at its interface: the
task identifier carried by the task specification. -/
structure Task where
  task_id : TaskID
  deriving DecidableEq, Repr

/-- `Status` result of `AssignTask`: success, or a failure status when the
underlying RPC dispatch cannot be issued. -/
inductive Status where
  | ok : Status
  | ioError : Status
  deriving DecidableEq, Repr

/-- The `Worker` class state (fields of `worker.h`, lines 81-153).  The
`connection_ok_` flag models whether the byte-stream channel / RPC binding to
the worker process can currently issue a dispatch (connection not broken). -/
structure Worker where
  worker_id_ : WorkerID
  proc_ : Process
  language_ : Language
  port_ : Int
  connection_ok_ : Bool
  assigned_task_id_ : TaskID
  assigned_job_id_ : JobID
  actor_id_ : ActorID
  dead_ : Bool
  blocked_ : Bool
  lifetime_resource_ids_ : ResourceIdSet
  task_resource_ids_ : ResourceIdSet
  blocked_task_ids_ : List TaskID
  is_detached_actor_ : Bool
  owner_address_ : Address
  allocated_instances_ : TaskResourceInstances
  lifetime_allocated_instances_ : TaskResourceInstances
  borrowed_cpu_instances_ : List ℚ
  assigned_task_ : Task
  active_object_ids_ : List ObjectID

/-- Modelled from the spec: `MarkDead` (body in the missing worker.cc) sets
the terminal `dead_` flag; it does not itself release resources. -/
def Worker.MarkDead (w : Worker) : Worker := { w with dead_ := true }

/-- Modelled from the spec: `IsDead` (body in the missing worker.cc) reads the
`dead_` flag. -/
def Worker.IsDead (w : Worker) : Bool := w.dead_

/-- Modelled from the spec: `MarkBlocked` (body in the missing worker.cc) sets
the `blocked_` flag; an independent toggle with no transition guard. -/
def Worker.MarkBlocked (w : Worker) : Worker := { w with blocked_ := true }

/-- Modelled from the spec: `MarkUnblocked` (body in the missing worker.cc)
clears the `blocked_` flag; an independent toggle with no transition guard. -/
def Worker.MarkUnblocked (w : Worker) : Worker := { w with blocked_ := false }

/-- Modelled from the spec: `IsBlocked` (body in the missing worker.cc) reads
the `blocked_` flag. -/
def Worker.IsBlocked (w : Worker) : Bool := w.blocked_

/-- Modelled from the spec: `SetProcess` (body in the missing worker.cc)
records the backing OS process handle. -/
def Worker.SetProcess (w : Worker) (proc : Process) : Worker :=
  { w with proc_ := proc }

/-- Modelled from the spec: `AssignTaskId` (body in the missing worker.cc)
unconditionally sets the current assigned task id, overwriting any previous
value (no internal guard against double-assignment). -/
def Worker.AssignTaskId (w : Worker) (task_id : TaskID) : Worker :=
  { w with assigned_task_id_ := task_id }

/-- Modelled from the spec: `GetAssignedTaskId` (body in the missing
worker.cc) reads the current assigned task id. -/
def Worker.GetAssignedTaskId (w : Worker) : TaskID := w.assigned_task_id_

/-- Modelled from the spec: `AddBlockedTaskId` (body in the missing
worker.cc) inserts into the blocked-task set with set semantics: returns
false and leaves the set unchanged when the id is already present, returns
true after inserting it otherwise. -/
def Worker.AddBlockedTaskId (w : Worker) (task_id : TaskID) : Bool × Worker :=
  if task_id ∈ w.blocked_task_ids_ then (false, w)
  else (true, { w with blocked_task_ids_ := task_id :: w.blocked_task_ids_ })

/-- Modelled from the spec: `RemoveBlockedTaskId` (body in the missing
worker.cc) erases from the blocked-task set: returns false and leaves the set
unchanged when the id is absent, returns true after removing it otherwise. -/
def Worker.RemoveBlockedTaskId (w : Worker) (task_id : TaskID) : Bool × Worker :=
  if task_id ∈ w.blocked_task_ids_ then
    (true, { w with blocked_task_ids_ := w.blocked_task_ids_.erase task_id })
  else (false, w)

/-- Modelled from the spec: `AssignJobId` (body in the missing worker.cc). -/
def Worker.AssignJobId (w : Worker) (job_id : JobID) : Worker :=
  { w with assigned_job_id_ := job_id }

/-- Modelled from the spec: `AssignActorId` (body in the missing worker.cc). -/
def Worker.AssignActorId (w : Worker) (actor_id : ActorID) : Worker :=
  { w with actor_id_ := actor_id }

/-- Modelled from the spec: `MarkDetachedActor` (body in the missing
worker.cc) sets the detached-actor flag. -/
def Worker.MarkDetachedActor (w : Worker) : Worker :=
  { w with is_detached_actor_ := true }

/-- Modelled from the spec: `SetOwnerAddress` (body in the missing
worker.cc). -/
def Worker.SetOwnerAddress (w : Worker) (address : Address) : Worker :=
  { w with owner_address_ := address }

/-- Modelled from the spec: `SetLifetimeResourceIds` (body in the missing
worker.cc) installs the actor-duration claim set. -/
def Worker.SetLifetimeResourceIds (w : Worker) (resource_ids : ResourceIdSet) :
    Worker :=
  { w with lifetime_resource_ids_ := resource_ids }

/-- Modelled from the spec: `ResetLifetimeResourceIds` (body in the missing
worker.cc) clears the actor-duration claim set. -/
def Worker.ResetLifetimeResourceIds (w : Worker) : Worker :=
  { w with lifetime_resource_ids_ := ResourceIdSet.empty }

/-- Modelled from the spec: `SetTaskResourceIds` (body in the missing
worker.cc) installs the per-task claim set. -/
def Worker.SetTaskResourceIds (w : Worker) (resource_ids : ResourceIdSet) :
    Worker :=
  { w with task_resource_ids_ := resource_ids }

/-- Modelled from the spec: `ResetTaskResourceIds` (body in the missing
worker.cc) clears the per-task claim set. -/
def Worker.ResetTaskResourceIds (w : Worker) : Worker :=
  { w with task_resource_ids_ := ResourceIdSet.empty }

/-- Modelled from the spec: `ReleaseTaskCpuResources` (body in the missing
worker.cc) extracts and returns exactly the CPU portion of
`task_resource_ids_`, leaving non-CPU claims intact; returns an empty set if
no CPU was held (a no-op, never a failure). -/
def Worker.ReleaseTaskCpuResources (w : Worker) : ResourceIdSet × Worker :=
  let cpu_resources := w.task_resource_ids_.GetCpuResources
  (cpu_resources,
    { w with task_resource_ids_ :=
        fun r => if r = cpuResourceName then [] else w.task_resource_ids_ r })

/-- Modelled from the spec: `AcquireTaskCpuResources` (body in the missing
worker.cc) re-installs a previously released CPU claim set into
`task_resource_ids_`. -/
def Worker.AcquireTaskCpuResources (w : Worker) (cpu_resources : ResourceIdSet) :
    Worker :=
  { w with task_resource_ids_ := w.task_resource_ids_.Acquire cpu_resources }

/-- Modelled from the spec: `SetActiveObjectIds` (body in the missing
worker.cc). -/
def Worker.SetActiveObjectIds (w : Worker) (object_ids : List ObjectID) :
    Worker :=
  { w with active_object_ids_ := object_ids }

/-- Modelled from the spec: `AssignTask` (body in the missing worker.cc), the
composite entry point: records the task as the worker's assigned task,
installs the task-scope resource claims, and returns success, or a failure
status when the underlying RPC dispatch cannot be issued (connection broken);
the failure never destroys the handle, whose state is still returned. -/
def Worker.AssignTask (w : Worker) (task : Task) (resource_id_set : ResourceIdSet) :
    Status × Worker :=
  let w1 := { w with assigned_task_ := task,
                     assigned_task_id_ := task.task_id,
                     task_resource_ids_ := resource_id_set }
  if w.connection_ok_ then (Status.ok, w1) else (Status.ioError, w1)

/-- Modelled from the spec: `DirectActorCallArgWaitComplete` (body in the
missing worker.cc) is a pass-through signal into the RPC layer with no local
state besides forwarding. -/
def Worker.DirectActorCallArgWaitComplete (w : Worker) (_tag : Int) : Worker :=
  w

/-- Modelled from the spec: `WorkerLeaseGranted` (body in the missing
worker.cc) overwrites `owner_address_` with the new lease holder, without
validating that the previous lease was released. -/
def Worker.WorkerLeaseGranted (w : Worker) (address : String) (port : Int) :
    Worker :=
  { w with owner_address_ := ⟨address, port⟩ }

/-- `SetAllocatedInstances` (worker.h lines 82-84, inline in the header). -/
def Worker.SetAllocatedInstances (w : Worker)
    (allocated_instances : TaskResourceInstances) : Worker :=
  { w with allocated_instances_ := allocated_instances }

/-- `GetAllocatedInstances` (worker.h line 85, inline in the header). -/
def Worker.GetAllocatedInstances (w : Worker) : TaskResourceInstances :=
  w.allocated_instances_

/-- `ClearAllocatedInstances` (worker.h lines 86-89, inline in the header):
assigns a default-constructed (zero/empty) ledger. -/
def Worker.ClearAllocatedInstances (w : Worker) : Worker :=
  { w with allocated_instances_ := TaskResourceInstances.emptyLedger }

/-- `SetLifetimeAllocatedInstances` (worker.h lines 91-93, inline). -/
def Worker.SetLifetimeAllocatedInstances (w : Worker)
    (allocated_instances : TaskResourceInstances) : Worker :=
  { w with lifetime_allocated_instances_ := allocated_instances }

/-- `GetLifetimeAllocatedInstances` (worker.h line 94, inline). -/
def Worker.GetLifetimeAllocatedInstances (w : Worker) : TaskResourceInstances :=
  w.lifetime_allocated_instances_

/-- `ClearLifetimeAllocatedInstances` (worker.h lines 95-98, inline):
assigns a default-constructed (zero/empty) ledger. -/
def Worker.ClearLifetimeAllocatedInstances (w : Worker) : Worker :=
  { w with lifetime_allocated_instances_ := TaskResourceInstances.emptyLedger }

/-- `SetBorrowedCPUInstances` (worker.h lines 100-102, inline). -/
def Worker.SetBorrowedCPUInstances (w : Worker) (cpu_instances : List ℚ) :
    Worker :=
  { w with borrowed_cpu_instances_ := cpu_instances }

/-- `GetBorrowedCPUInstances` (worker.h line 103, inline). -/
def Worker.GetBorrowedCPUInstances (w : Worker) : List ℚ :=
  w.borrowed_cpu_instances_

/-- `ClearBorrowedCPUInstances` (worker.h line 104, inline): clears the
vector. -/
def Worker.ClearBorrowedCPUInstances (w : Worker) : Worker :=
  { w with borrowed_cpu_instances_ := [] }

/-- `SetAssignedTask` (worker.h line 108, inline). -/
def Worker.SetAssignedTask (w : Worker) (assigned_task : Task) : Worker :=
  { w with assigned_task_ := assigned_task }

/-- `GetAssignedTask` (worker.h line 107, inline). -/
def Worker.GetAssignedTask (w : Worker) : Task := w.assigned_task_

/-- The state-mutating operations of the `Worker` interface, one constructor
per public method that can change worker state (value-returning methods are
represented by their state effect). -/
inductive Op where
  | markDead : Op
  | markBlocked : Op
  | markUnblocked : Op
  | setProcess : Process → Op
  | assignTaskId : TaskID → Op
  | addBlockedTaskId : TaskID → Op
  | removeBlockedTaskId : TaskID → Op
  | assignJobId : JobID → Op
  | assignActorId : ActorID → Op
  | markDetachedActor : Op
  | setOwnerAddress : Address → Op
  | setLifetimeResourceIds : ResourceIdSet → Op
  | resetLifetimeResourceIds : Op
  | setTaskResourceIds : ResourceIdSet → Op
  | resetTaskResourceIds : Op
  | releaseTaskCpuResources : Op
  | acquireTaskCpuResources : ResourceIdSet → Op
  | setActiveObjectIds : List ObjectID → Op
  | assignTask : Task → ResourceIdSet → Op
  | directActorCallArgWaitComplete : Int → Op
  | workerLeaseGranted : String → Int → Op
  | setAllocatedInstances : TaskResourceInstances → Op
  | clearAllocatedInstances : Op
  | setLifetimeAllocatedInstances : TaskResourceInstances → Op
  | clearLifetimeAllocatedInstances : Op
  | setBorrowedCPUInstances : List ℚ → Op
  | clearBorrowedCPUInstances : Op
  | setAssignedTask : Task → Op

/-- Apply one interface operation to a worker state (for value-returning
operations, keep the resulting state). -/
def applyOp (w : Worker) : Op → Worker
  | Op.markDead => w.MarkDead
  | Op.markBlocked => w.MarkBlocked
  | Op.markUnblocked => w.MarkUnblocked
  | Op.setProcess p => w.SetProcess p
  | Op.assignTaskId id => w.AssignTaskId id
  | Op.addBlockedTaskId id => (w.AddBlockedTaskId id).2
  | Op.removeBlockedTaskId id => (w.RemoveBlockedTaskId id).2
  | Op.assignJobId id => w.AssignJobId id
  | Op.assignActorId id => w.AssignActorId id
  | Op.markDetachedActor => w.MarkDetachedActor
  | Op.setOwnerAddress a => w.SetOwnerAddress a
  | Op.setLifetimeResourceIds s => w.SetLifetimeResourceIds s
  | Op.resetLifetimeResourceIds => w.ResetLifetimeResourceIds
  | Op.setTaskResourceIds s => w.SetTaskResourceIds s
  | Op.resetTaskResourceIds => w.ResetTaskResourceIds
  | Op.releaseTaskCpuResources => w.ReleaseTaskCpuResources.2
  | Op.acquireTaskCpuResources c => w.AcquireTaskCpuResources c
  | Op.setActiveObjectIds ids => w.SetActiveObjectIds ids
  | Op.assignTask t s => (w.AssignTask t s).2
  | Op.directActorCallArgWaitComplete tag => w.DirectActorCallArgWaitComplete tag
  | Op.workerLeaseGranted a p => w.WorkerLeaseGranted a p
  | Op.setAllocatedInstances a => w.SetAllocatedInstances a
  | Op.clearAllocatedInstances => w.ClearAllocatedInstances
  | Op.setLifetimeAllocatedInstances a => w.SetLifetimeAllocatedInstances a
  | Op.clearLifetimeAllocatedInstances => w.ClearLifetimeAllocatedInstances
  | Op.setBorrowedCPUInstances c => w.SetBorrowedCPUInstances c
  | Op.clearBorrowedCPUInstances => w.ClearBorrowedCPUInstances
  | Op.setAssignedTask t => w.SetAssignedTask t

/-- Apply a sequence of interface operations from left to right. -/
def applyOps (w : Worker) (ops : List Op) : Worker :=
  ops.foldl applyOp w

/-- The blocked-task-set operations of the `Worker` interface. -/
inductive BlockedOp where
  | add : TaskID → BlockedOp
  | remove : TaskID → BlockedOp

/-- Apply one blocked-task-set operation, keeping the resulting state. -/
def applyBlockedOp (w : Worker) : BlockedOp → Worker
  | BlockedOp.add id => (w.AddBlockedTaskId id).2
  | BlockedOp.remove id => (w.RemoveBlockedTaskId id).2

/-- Apply a sequence of blocked-task-set operations from left to right. -/
def applyBlockedOps (w : Worker) (ops : List BlockedOp) : Worker :=
  ops.foldl applyBlockedOp w

/-- A sample worker state used to instantiate theorems with hypotheses. -/
def sampleWorker : Worker where
  worker_id_ := 1
  proc_ := 100
  language_ := 0
  port_ := 10001
  connection_ok_ := true
  assigned_task_id_ := 0
  assigned_job_id_ := 0
  actor_id_ := 0
  dead_ := false
  blocked_ := false
  lifetime_resource_ids_ := ResourceIdSet.empty
  task_resource_ids_ := fun r => if r = "GPU" then [(0, 1)] else []
  blocked_task_ids_ := [5, 7]
  is_detached_actor_ := false
  owner_address_ := ⟨"127.0.0.1", 4000⟩
  allocated_instances_ := ⟨[[1]], []⟩
  lifetime_allocated_instances_ := ⟨[], [(3, [1])]⟩
  borrowed_cpu_instances_ := []
  assigned_task_ := ⟨0⟩
  active_object_ids_ := []

/-- Claim C1: for every worker, calling `ReleaseTaskCpuResources` and then
immediately calling `AcquireTaskCpuResources` with the returned value
restores the task-scope claim set `task_resource_ids_` to exactly its
pre-release state. -/
theorem release_acquire_cpu_roundtrip (w : Worker) :
    (w.ReleaseTaskCpuResources.2.AcquireTaskCpuResources
      w.ReleaseTaskCpuResources.1).task_resource_ids_ = w.task_resource_ids_ := by
  funext r
  by_cases h : r = cpuResourceName <;>
    simp [Worker.ReleaseTaskCpuResources, Worker.AcquireTaskCpuResources,
      ResourceIdSet.Acquire, ResourceIdSet.GetCpuResources, h]

/-- Claim C2: `ReleaseTaskCpuResources` returns exactly the CPU portion of
the task-scope claim set (the CPU entry is returned in full, every non-CPU
entry of the returned set is empty), leaves every non-CPU claim of the
task-scope set unchanged and clears its CPU entry; and when the task-scope
set holds no CPU it returns the empty set and leaves the task-scope set
unchanged (a no-op, not a failure). -/
theorem release_task_cpu_exact (w : Worker) (r : String)
    (hr : r ≠ cpuResourceName) :
    w.ReleaseTaskCpuResources.1 cpuResourceName
        = w.task_resource_ids_ cpuResourceName
    ∧ w.ReleaseTaskCpuResources.1 r = []
    ∧ w.ReleaseTaskCpuResources.2.task_resource_ids_ r = w.task_resource_ids_ r
    ∧ w.ReleaseTaskCpuResources.2.task_resource_ids_ cpuResourceName = []
    ∧ (w.task_resource_ids_ cpuResourceName = [] →
        w.ReleaseTaskCpuResources.1 = ResourceIdSet.empty
        ∧ w.ReleaseTaskCpuResources.2.task_resource_ids_
            = w.task_resource_ids_) := by
  refine ⟨?_, ?_, ?_, ?_, ?_⟩
  · simp [Worker.ReleaseTaskCpuResources, ResourceIdSet.GetCpuResources]
  · simp [Worker.ReleaseTaskCpuResources, ResourceIdSet.GetCpuResources, hr]
  · simp [Worker.ReleaseTaskCpuResources, hr]
  · simp [Worker.ReleaseTaskCpuResources]
  · intro hcpu
    constructor
    · funext s
      by_cases hs : s = cpuResourceName <;>
        simp [Worker.ReleaseTaskCpuResources, ResourceIdSet.GetCpuResources,
          ResourceIdSet.empty, hs, hcpu]
    · funext s
      by_cases hs : s = cpuResourceName <;>
        simp [Worker.ReleaseTaskCpuResources, hs, hcpu]

/-- Witness for C2 at a concrete worker holding only a GPU claim. -/
theorem release_task_cpu_exact_witness :
    ("GPU" ≠ cpuResourceName)
    ∧ sampleWorker.ReleaseTaskCpuResources.1 cpuResourceName
        = sampleWorker.task_resource_ids_ cpuResourceName
    ∧ sampleWorker.ReleaseTaskCpuResources.1 "GPU" = []
    ∧ sampleWorker.ReleaseTaskCpuResources.2.task_resource_ids_ "GPU"
        = sampleWorker.task_resource_ids_ "GPU"
    ∧ sampleWorker.ReleaseTaskCpuResources.2.task_resource_ids_ cpuResourceName
        = []
    ∧ (sampleWorker.task_resource_ids_ cpuResourceName = [] →
        sampleWorker.ReleaseTaskCpuResources.1 = ResourceIdSet.empty
        ∧ sampleWorker.ReleaseTaskCpuResources.2.task_resource_ids_
            = sampleWorker.task_resource_ids_) :=
  ⟨by decide, release_task_cpu_exact sampleWorker "GPU" (by decide)⟩

/-- Claim C5: after `ClearAllocatedInstances`, `GetAllocatedInstances`
returns the zero/empty ledger regardless of the prior contents (the clear is
total, also after any `SetAllocatedInstances`). -/
theorem clear_allocated_instances_total (w : Worker)
    (prior : TaskResourceInstances) :
    w.ClearAllocatedInstances.GetAllocatedInstances
        = TaskResourceInstances.emptyLedger
    ∧ (w.SetAllocatedInstances prior).ClearAllocatedInstances.GetAllocatedInstances
        = TaskResourceInstances.emptyLedger :=
  ⟨rfl, rfl⟩

/-- Claim C7: `MarkDead` is idempotent — the state after calling it twice is
exactly the state after calling it once, and `IsDead` is true afterwards. -/
theorem mark_dead_idempotent (w : Worker) :
    w.MarkDead.MarkDead = w.MarkDead ∧ w.MarkDead.IsDead = true :=
  ⟨rfl, rfl⟩

/-- Claim C9: `AssignTaskId` unconditionally sets the assigned task id,
overwriting any previous value with no guard against double assignment, and
`GetAssignedTaskId` afterwards returns it. -/
theorem assign_task_id_overwrites (w : Worker) (id1 id2 : TaskID) :
    (w.AssignTaskId id1).GetAssignedTaskId = id1
    ∧ ((w.AssignTaskId id1).AssignTaskId id2).GetAssignedTaskId = id2
    ∧ (w.AssignTaskId id1).AssignTaskId id2 = w.AssignTaskId id2 :=
  ⟨rfl, rfl, rfl⟩

/-- Claim C10: the three instance-accounting stores are framed from each
other — `ClearAllocatedInstances` leaves the lifetime ledger and the
borrowed-CPU vector unchanged, `ClearLifetimeAllocatedInstances` leaves the
task ledger and the borrowed-CPU vector unchanged, and
`SetBorrowedCPUInstances` / `ClearBorrowedCPUInstances` leave both ledgers
unchanged. -/
theorem instance_stores_framed (w : Worker) (c : List ℚ) :
    (w.ClearAllocatedInstances.GetLifetimeAllocatedInstances
        = w.GetLifetimeAllocatedInstances
      ∧ w.ClearAllocatedInstances.GetBorrowedCPUInstances
        = w.GetBorrowedCPUInstances)
    ∧ (w.ClearLifetimeAllocatedInstances.GetAllocatedInstances
        = w.GetAllocatedInstances
      ∧ w.ClearLifetimeAllocatedInstances.GetBorrowedCPUInstances
        = w.GetBorrowedCPUInstances)
    ∧ ((w.SetBorrowedCPUInstances c).GetAllocatedInstances
        = w.GetAllocatedInstances
      ∧ (w.SetBorrowedCPUInstances c).GetLifetimeAllocatedInstances
        = w.GetLifetimeAllocatedInstances
      ∧ w.ClearBorrowedCPUInstances.GetAllocatedInstances
        = w.GetAllocatedInstances
      ∧ w.ClearBorrowedCPUInstances.GetLifetimeAllocatedInstances
        = w.GetLifetimeAllocatedInstances) :=
  ⟨⟨rfl, rfl⟩, ⟨rfl, rfl⟩, rfl, rfl, rfl, rfl⟩

/-- All observable fields of two worker states other than the blocked flag
agree. -/
def AgreesExceptBlocked (w w' : Worker) : Prop :=
  w'.worker_id_ = w.worker_id_ ∧ w'.proc_ = w.proc_
  ∧ w'.language_ = w.language_ ∧ w'.port_ = w.port_
  ∧ w'.connection_ok_ = w.connection_ok_
  ∧ w'.assigned_task_id_ = w.assigned_task_id_
  ∧ w'.assigned_job_id_ = w.assigned_job_id_
  ∧ w'.actor_id_ = w.actor_id_ ∧ w'.dead_ = w.dead_
  ∧ w'.lifetime_resource_ids_ = w.lifetime_resource_ids_
  ∧ w'.task_resource_ids_ = w.task_resource_ids_
  ∧ w'.blocked_task_ids_ = w.blocked_task_ids_
  ∧ w'.is_detached_actor_ = w.is_detached_actor_
  ∧ w'.owner_address_ = w.owner_address_
  ∧ w'.allocated_instances_ = w.allocated_instances_
  ∧ w'.lifetime_allocated_instances_ = w.lifetime_allocated_instances_
  ∧ w'.borrowed_cpu_instances_ = w.borrowed_cpu_instances_
  ∧ w'.assigned_task_ = w.assigned_task_
  ∧ w'.active_object_ids_ = w.active_object_ids_

/-- Claim C8: `MarkBlocked` and `MarkUnblocked` toggle only the blocked flag
with no transition guard — they have the stated effect even on a dead worker
and leave the dead flag and every other field unchanged. -/
theorem mark_blocked_unblocked_frame (w : Worker) :
    (w.MarkBlocked.IsBlocked = true ∧ w.MarkUnblocked.IsBlocked = false)
    ∧ (w.MarkDead.MarkBlocked.IsBlocked = true
      ∧ w.MarkDead.MarkBlocked.IsDead = true
      ∧ w.MarkDead.MarkUnblocked.IsBlocked = false
      ∧ w.MarkDead.MarkUnblocked.IsDead = true)
    ∧ AgreesExceptBlocked w w.MarkBlocked
    ∧ AgreesExceptBlocked w w.MarkUnblocked := by
  refine ⟨⟨rfl, rfl⟩, ⟨rfl, rfl, rfl, rfl⟩, ?_, ?_⟩ <;>
    exact ⟨rfl, rfl, rfl, rfl, rfl, rfl, rfl, rfl, rfl, rfl, rfl, rfl, rfl,
      rfl, rfl, rfl, rfl, rfl, rfl⟩

/-- Claim C3: `AssignTask` records the task as the worker's assigned task,
installs the given task-scope resource claims, and returns success exactly
when the RPC dispatch can be issued (failure status when the connection is
broken); in either case the handle survives with its identity and dead flag
untouched. -/
theorem assign_task_spec (w : Worker) (task : Task) (claims : ResourceIdSet) :
    (w.AssignTask task claims).2.GetAssignedTask = task
    ∧ (w.AssignTask task claims).2.GetAssignedTaskId = task.task_id
    ∧ (w.AssignTask task claims).2.task_resource_ids_ = claims
    ∧ ((w.AssignTask task claims).1 = Status.ok ↔ w.connection_ok_ = true)
    ∧ (w.AssignTask task claims).2.worker_id_ = w.worker_id_
    ∧ (w.AssignTask task claims).2.IsDead = w.IsDead := by
  by_cases h : w.connection_ok_ <;>
    simp [Worker.AssignTask, h, Worker.GetAssignedTask, Worker.GetAssignedTaskId,
      Worker.IsDead]

/-- The second component of `AddBlockedTaskId` never changes the dead flag. -/
theorem addBlockedTaskId_dead (w : Worker) (id : TaskID) :
    (w.AddBlockedTaskId id).2.dead_ = w.dead_ := by
  unfold Worker.AddBlockedTaskId
  split <;> rfl

/-- The second component of `RemoveBlockedTaskId` never changes the dead
flag. -/
theorem removeBlockedTaskId_dead (w : Worker) (id : TaskID) :
    (w.RemoveBlockedTaskId id).2.dead_ = w.dead_ := by
  unfold Worker.RemoveBlockedTaskId
  split <;> rfl

/-- The second component of `AssignTask` never changes the dead flag. -/
theorem assignTask_dead (w : Worker) (t : Task) (s : ResourceIdSet) :
    (w.AssignTask t s).2.dead_ = w.dead_ := by
  simp only [Worker.AssignTask]
  split <;> rfl

/-- No interface operation turns the dead flag off; `MarkDead` is the only
one that changes it, and only to true. -/
theorem applyOp_dead_mono (w : Worker) (op : Op) (h : w.dead_ = true) :
    (applyOp w op).dead_ = true := by
  cases op <;>
    simp only [applyOp, addBlockedTaskId_dead, removeBlockedTaskId_dead,
      assignTask_dead] <;>
    first
      | exact h
      | rfl

/-- Claim C6: the dead flag is terminal — from any state where `IsDead` is
true, no sequence of interface operations makes `IsDead` false again. -/
theorem dead_flag_terminal (w : Worker) (ops : List Op) (h : w.IsDead = true) :
    (applyOps w ops).IsDead = true := by
  induction ops generalizing w with
  | nil => exact h
  | cons op rest ih => exact ih _ (applyOp_dead_mono w op h)

/-- Witness for C6 on a concrete dead worker and a concrete operation
sequence. -/
theorem dead_flag_terminal_witness :
    sampleWorker.MarkDead.IsDead = true
    ∧ (applyOps sampleWorker.MarkDead
        [Op.markBlocked, Op.assignTaskId 9, Op.clearAllocatedInstances,
          Op.markUnblocked, Op.removeBlockedTaskId 5]).IsDead = true :=
  ⟨rfl, dead_flag_terminal sampleWorker.MarkDead _ rfl⟩

/-- `AddBlockedTaskId` keeps the blocked-task set free of duplicates. -/
theorem addBlockedTaskId_nodup (w : Worker) (id : TaskID)
    (h : w.blocked_task_ids_.Nodup) :
    (w.AddBlockedTaskId id).2.blocked_task_ids_.Nodup := by
  unfold Worker.AddBlockedTaskId
  split
  · exact h
  · exact List.nodup_cons.mpr ⟨by assumption, h⟩

/-- `RemoveBlockedTaskId` keeps the blocked-task set free of duplicates. -/
theorem removeBlockedTaskId_nodup (w : Worker) (id : TaskID)
    (h : w.blocked_task_ids_.Nodup) :
    (w.RemoveBlockedTaskId id).2.blocked_task_ids_.Nodup := by
  unfold Worker.RemoveBlockedTaskId
  split
  · exact h.erase id
  · exact h

/-- Any sequence of blocked-task-set operations preserves freedom from
duplicates. -/
theorem applyBlockedOps_nodup (w : Worker) (ops : List BlockedOp)
    (h : w.blocked_task_ids_.Nodup) :
    (applyBlockedOps w ops).blocked_task_ids_.Nodup := by
  induction ops generalizing w with
  | nil => exact h
  | cons op rest ih =>
      cases op with
      | add id => exact ih _ (addBlockedTaskId_nodup w id h)
      | remove id => exact ih _ (removeBlockedTaskId_nodup w id h)

/-- Claim C4: from an empty blocked-task set, every sequence of
`AddBlockedTaskId` / `RemoveBlockedTaskId` operations keeps the set free of
duplicates; `AddBlockedTaskId` returns false and leaves the state unchanged
on a present id and returns true after inserting an absent one;
`RemoveBlockedTaskId` returns false and leaves the state unchanged on an
absent id and returns true after removing a present one. -/
theorem blocked_task_set_semantics (w : Worker) (id : TaskID)
    (hw : w.blocked_task_ids_.Nodup) :
    (∀ v : Worker, v.blocked_task_ids_ = [] →
      ∀ ops : List BlockedOp,
        (applyBlockedOps v ops).blocked_task_ids_.Nodup)
    ∧ (id ∈ w.blocked_task_ids_ → w.AddBlockedTaskId id = (false, w))
    ∧ (id ∉ w.blocked_task_ids_ →
        (w.AddBlockedTaskId id).1 = true
        ∧ ∀ j, j ∈ (w.AddBlockedTaskId id).2.blocked_task_ids_ ↔
            (j = id ∨ j ∈ w.blocked_task_ids_))
    ∧ (id ∉ w.blocked_task_ids_ → w.RemoveBlockedTaskId id = (false, w))
    ∧ (id ∈ w.blocked_task_ids_ →
        (w.RemoveBlockedTaskId id).1 = true
        ∧ ∀ j, j ∈ (w.RemoveBlockedTaskId id).2.blocked_task_ids_ ↔
            (j ≠ id ∧ j ∈ w.blocked_task_ids_)) := by
  refine ⟨?_, ?_, ?_, ?_, ?_⟩
  · intro v hv ops
    exact applyBlockedOps_nodup v ops (hv ▸ List.nodup_nil)
  · intro hmem
    unfold Worker.AddBlockedTaskId
    rw [if_pos hmem]
  · intro hmem
    unfold Worker.AddBlockedTaskId
    rw [if_neg hmem]
    exact ⟨rfl, fun j => List.mem_cons⟩
  · intro hmem
    unfold Worker.RemoveBlockedTaskId
    rw [if_neg hmem]
  · intro hmem
    unfold Worker.RemoveBlockedTaskId
    rw [if_pos hmem]
    exact ⟨rfl, fun j => hw.mem_erase_iff⟩

/-- Witness for C4 at a concrete worker whose blocked-task set is {5, 7}. -/
theorem blocked_task_set_semantics_witness :
    sampleWorker.blocked_task_ids_.Nodup
    ∧ sampleWorker.AddBlockedTaskId 5 = (false, sampleWorker)
    ∧ sampleWorker.RemoveBlockedTaskId 6 = (false, sampleWorker) :=
  ⟨by decide,
    (blocked_task_set_semantics sampleWorker 5 (by decide)).2.1 (by decide),
    (blocked_task_set_semantics sampleWorker 6 (by decide)).2.2.2.1 (by decide)⟩

end RayWorker
